import Mathlib

/-!
Verification of the email-connector authentication subsystem
(token_manager.py, auth_manager.py, graph_client.py,
multi_user_api_server.py) by shallow embedding: each Python function the
claims depend on is transcribed into an executable Lean definition, and
the claimed properties are settled as theorems about those definitions.

Conventions used throughout:
* Unix timestamps are integers (`Int`), as produced by int(time.time()).
* A Python dict field that may be absent is an `Option`; where the
  distinction between an absent key and an explicit JSON null matters
  (dict.get returns the default only for an absent key), a three-valued
  `Field` type is used.
* Effectful steps (network responses, the MSAL library, the OS keychain,
  the HTTP listener) are parameters of the embedded functions: an
  environment value records the outcome of each external interaction,
  and the embedding threads explicit state where the Python mutates it.
-/

namespace TokenManagerM

/-- Token data as stored by TokenManager.store_tokens: the fields of the
keychain JSON blob that the validity check and the access-token path
consult.  expires_at is `Option` because is_token_valid explicitly
checks for the presence of the key. -/
structure TokenData where
  access_token : Option String
  refresh_token : Option String
  expires_at : Option Int
  deriving Repr, DecidableEq

/-- TokenManager.is_token_valid (token_manager.py lines 122-138):
returns False when no token data or no expires_at key; otherwise
computes (expires_at - 300) > current_time, the 5-minute buffer. -/
def is_token_valid (token_data : Option TokenData) (current_time : Int) : Bool :=
  match token_data with
  | none => false
  | some td =>
    match td.expires_at with
    | none => false
    | some expires_at => (expires_at - 300) > current_time

end TokenManagerM

namespace MultiUserM

/-- One row of the user_tokens SQLite table read by get_user_token
(multi_user_api_server.py lines 79-101). -/
structure UserTokenRow where
  user_id : String
  user_email : String
  access_token : Option String
  refresh_token : Option String
  expires_at : Int
  deriving Repr, DecidableEq

/-- The dict returned by get_user_token when a row is found. -/
structure UserTokenInfo where
  access_token : Option String
  refresh_token : Option String
  expires_at : Int
  user_email : String
  is_valid : Bool
  deriving Repr, DecidableEq

/-- get_user_token (multi_user_api_server.py lines 79-101): looks the
user up in the user_tokens table and, when found, returns the token
fields together with is_valid computed as expires_at > now -- no
expiry buffer is applied here. -/
def get_user_token (db : List UserTokenRow) (user_id : String) (now : Int) :
    Option UserTokenInfo :=
  match db.find? (fun r => r.user_id == user_id) with
  | none => none
  | some row =>
    some { access_token := row.access_token
           refresh_token := row.refresh_token
           expires_at := row.expires_at
           user_email := row.user_email
           is_valid := row.expires_at > now }

end MultiUserM

/-- C1: the claim, stated over both validity computations: a single
invariant (valid iff now < expiresAt - 300) governs TokenManager.is_token_valid
and the is_valid field of get_user_token. -/
def C1ClaimStatement : Prop :=
  (∀ (td : TokenManagerM.TokenData) (e now : Int), td.expires_at = some e →
      (TokenManagerM.is_token_valid (some td) now = true ↔ now < e - 300)) ∧
  (∀ (db : List MultiUserM.UserTokenRow) (uid : String) (now : Int)
      (info : MultiUserM.UserTokenInfo),
      MultiUserM.get_user_token db uid now = some info →
      (info.is_valid = true ↔ now < info.expires_at - 300))

/-- A concrete registry row used to refute the second half of C1. -/
def c1Row : MultiUserM.UserTokenRow :=
  { user_id := "u1", user_email := "u1@example.com"
    access_token := some "AT", refresh_token := none, expires_at := 1000 }

/-- C1 counterexample: at now = 700 = expiresAt - 300 the claimed
invariant says invalid, and TokenManager.is_token_valid agrees, but the
multi-user registry get_user_token computes is_valid = (1000 > 700) =
true: the buffered invariant does not govern get_user_token. -/
theorem c1_single_invariant_false : ¬ C1ClaimStatement := by
  intro h
  have h2 := h.2 [c1Row] "u1" 700
    { access_token := some "AT", refresh_token := none, expires_at := 1000
      user_email := "u1@example.com", is_valid := true }
    (by decide)
  have : (700 : Int) < 1000 - 300 := h2.mp (by decide)
  omega

/-- C1 amended: TokenManager.is_token_valid implements the buffered
invariant (valid iff now < expiresAt - 300, so now = expiresAt - 300 is
invalid and now = expiresAt - 301 is valid), while the multi-user
registry get_user_token computes is_valid with no buffer: is_valid iff
now < expiresAt (boundary: now = expiresAt invalid, now = expiresAt - 1
valid). -/
theorem c1_validity_boundaries :
    (∀ (td : TokenManagerM.TokenData) (e now : Int), td.expires_at = some e →
        (TokenManagerM.is_token_valid (some td) now = true ↔ now < e - 300)) ∧
    (∀ (td : TokenManagerM.TokenData) (e : Int), td.expires_at = some e →
        TokenManagerM.is_token_valid (some td) (e - 300) = false ∧
        TokenManagerM.is_token_valid (some td) (e - 301) = true) ∧
    (∀ (db : List MultiUserM.UserTokenRow) (uid : String) (now : Int)
        (info : MultiUserM.UserTokenInfo),
        MultiUserM.get_user_token db uid now = some info →
        (info.is_valid = true ↔ now < info.expires_at)) := by
  refine ⟨?_, ?_, ?_⟩
  · intro td e now he
    simp [TokenManagerM.is_token_valid, he, decide_eq_true_iff]
  · intro td e he
    constructor
    · simp [TokenManagerM.is_token_valid, he]
    · simp [TokenManagerM.is_token_valid, he]
  · intro db uid now info hfind
    unfold MultiUserM.get_user_token at hfind
    cases hdb : db.find? (fun r => r.user_id == uid) with
    | none => rw [hdb] at hfind; exact absurd hfind (by simp)
    | some row =>
      rw [hdb] at hfind
      simp only [Option.some.injEq] at hfind
      subst hfind
      simp [decide_eq_true_iff]

/-- C1 witness: the amended theorem evaluated at a concrete record with
expiresAt = 1000: valid at now = 699, invalid at 700, and the registry
row valid at 999, invalid at 1000. -/
theorem c1_validity_boundaries_witness :
    TokenManagerM.is_token_valid
      (some { access_token := some "AT", refresh_token := none,
              expires_at := some 1000 }) 700 = false ∧
    TokenManagerM.is_token_valid
      (some { access_token := some "AT", refresh_token := none,
              expires_at := some 1000 }) 699 = true ∧
    ((MultiUserM.get_user_token [c1Row] "u1" 999).map (·.is_valid) = some true) := by
  refine ⟨?_, ?_, ?_⟩
  · exact (c1_validity_boundaries.2.1
      { access_token := some "AT", refresh_token := none, expires_at := some 1000 }
      1000 rfl).1
  · exact (c1_validity_boundaries.2.1
      { access_token := some "AT", refresh_token := none, expires_at := some 1000 }
      1000 rfl).2
  · have := (c1_validity_boundaries.2.2 [c1Row] "u1" 999
      { access_token := some "AT", refresh_token := none, expires_at := 1000
        user_email := "u1@example.com", is_valid := true } (by decide)).mpr (by decide)
    decide

namespace GraphClientM

/-- One outcome of session.request as seen by GraphClient._make_request:
either a network-level failure (requests.exceptions.RequestException) or
an HTTP response with a status code, an optional Retry-After header and
a body.  In the requests library, response.ok is status < 400. -/
inductive Resp where
  | netError
  | http (status : Nat) (retryAfter : Option Nat) (body : String)
  deriving Repr, DecidableEq

/-- The result _make_request delivers to its caller: the parsed body on
success, or the exception raised (one constructor per raise site). -/
inductive ApiOutcome where
  | ok (body : String)
  | authFailed
  | forbidden
  | rateLimitExceeded
  | serviceUnavailable
  | httpError (status : Nat) (body : String)
  | networkError
  | exhausted
  deriving Repr, DecidableEq

/-- The retry loop of GraphClient._make_request (graph_client.py lines
55-97), one recursive step per iteration of
for attempt in range(max_retries + 1).  The responses function gives
the outcome of the attempt-th session.request call; fuel counts the
iterations the range still allows.  The second component records, in
order, the seconds slept between attempts (the time.sleep calls).
401 and 403 raise at once; 429 sleeps the Retry-After value (default
60) and retries while attempt < max_retries; 503 sleeps
min(2 ^ attempt, 60) and retries likewise; other non-ok statuses raise;
a network error sleeps min(2 ^ attempt, 30) and retries. -/
def makeRequestLoop (responses : Nat → Resp) (max_retries : Nat) :
    Nat → Nat → ApiOutcome × List Nat
  | _, 0 => (ApiOutcome.exhausted, [])
  | attempt, fuel + 1 =>
    match responses attempt with
    | Resp.netError =>
      if attempt < max_retries then
        let wait_time := min (2 ^ attempt) 30
        let rest := makeRequestLoop responses max_retries (attempt + 1) fuel
        (rest.1, wait_time :: rest.2)
      else (ApiOutcome.networkError, [])
    | Resp.http status retryAfter body =>
      if status = 401 then (ApiOutcome.authFailed, [])
      else if status = 403 then (ApiOutcome.forbidden, [])
      else if status = 429 then
        let retry_after := retryAfter.getD 60
        if attempt < max_retries then
          let rest := makeRequestLoop responses max_retries (attempt + 1) fuel
          (rest.1, retry_after :: rest.2)
        else (ApiOutcome.rateLimitExceeded, [])
      else if status = 503 then
        if attempt < max_retries then
          let wait_time := min (2 ^ attempt) 60
          let rest := makeRequestLoop responses max_retries (attempt + 1) fuel
          (rest.1, wait_time :: rest.2)
        else (ApiOutcome.serviceUnavailable, [])
      else if ¬ status < 400 then (ApiOutcome.httpError status body, [])
      else (ApiOutcome.ok body, [])

/-- The default max_retries of _make_request. -/
def defaultMaxRetries : Nat := 3

/-- GraphClient._make_request (graph_client.py lines 37-104) with the
default max_retries = 3: runs the loop from attempt 0, with fuel for
the max_retries + 1 iterations of the range. -/
def make_request (responses : Nat → Resp) : ApiOutcome × List Nat :=
  makeRequestLoop responses defaultMaxRetries 0 (defaultMaxRetries + 1)

end GraphClientM

/-- C2: the retry policy of GraphClient._make_request.  At any attempt k
with iterations remaining: an HTTP 401 raises the authentication error
at once, with no retry and no sleep; an HTTP 429 below the retry cap
sleeps exactly the Retry-After value (default 60 seconds) and continues
with attempt k + 1, and at the cap raises the rate-limit error; an HTTP
503 below the cap sleeps min(2 ^ k, 60) seconds and continues, and at
the cap raises the service-unavailable error; and make_request runs the
loop from attempt 0 with the default max_retries = 3. -/
theorem c2_retry_policy (responses : Nat → GraphClientM.Resp)
    (mr k fuel : Nat) (ra : Option Nat) (body : String) :
    (responses k = GraphClientM.Resp.http 401 ra body →
      GraphClientM.makeRequestLoop responses mr k (fuel + 1) =
        (GraphClientM.ApiOutcome.authFailed, [])) ∧
    (responses k = GraphClientM.Resp.http 429 ra body → k < mr →
      GraphClientM.makeRequestLoop responses mr k (fuel + 1) =
        ((GraphClientM.makeRequestLoop responses mr (k + 1) fuel).1,
         ra.getD 60 :: (GraphClientM.makeRequestLoop responses mr (k + 1) fuel).2)) ∧
    (responses k = GraphClientM.Resp.http 429 ra body → ¬ k < mr →
      GraphClientM.makeRequestLoop responses mr k (fuel + 1) =
        (GraphClientM.ApiOutcome.rateLimitExceeded, [])) ∧
    (responses k = GraphClientM.Resp.http 503 ra body → k < mr →
      GraphClientM.makeRequestLoop responses mr k (fuel + 1) =
        ((GraphClientM.makeRequestLoop responses mr (k + 1) fuel).1,
         min (2 ^ k) 60 :: (GraphClientM.makeRequestLoop responses mr (k + 1) fuel).2)) ∧
    (responses k = GraphClientM.Resp.http 503 ra body → ¬ k < mr →
      GraphClientM.makeRequestLoop responses mr k (fuel + 1) =
        (GraphClientM.ApiOutcome.serviceUnavailable, [])) ∧
    GraphClientM.make_request responses =
      GraphClientM.makeRequestLoop responses 3 0 (3 + 1) := by
  refine ⟨?_, ?_, ?_, ?_, ?_, rfl⟩
  · intro h
    simp [GraphClientM.makeRequestLoop, h]
  · intro h hk
    simp [GraphClientM.makeRequestLoop, h, hk]
  · intro h hk
    simp [GraphClientM.makeRequestLoop, h, hk]
  · intro h hk
    simp [GraphClientM.makeRequestLoop, h, hk]
  · intro h hk
    simp [GraphClientM.makeRequestLoop, h, hk]

/-- A trace answering 429 with Retry-After 2 at the first attempt and
200 afterwards. -/
def c2resps429 : Nat → GraphClientM.Resp := fun n =>
  if n = 0 then GraphClientM.Resp.http 429 (some 2) "limited"
  else GraphClientM.Resp.http 200 none "ok"

/-- A trace answering 401 at the first attempt. -/
def c2resps401 : Nat → GraphClientM.Resp := fun _ =>
  GraphClientM.Resp.http 401 none "denied"

/-- A trace answering 503 at every attempt. -/
def c2resps503 : Nat → GraphClientM.Resp := fun _ =>
  GraphClientM.Resp.http 503 none "down"

/-- C2 witness: the policy theorem evaluated on concrete traces.  A 429
with Retry-After 2 followed by a 200 succeeds after one sleep of exactly
2 seconds; a 401 fails at once with no sleeps; a permanent 503 exhausts
the three retries sleeping 1, 2 and 4 seconds and fails. -/
theorem c2_retry_policy_witness :
    GraphClientM.make_request c2resps429 = (GraphClientM.ApiOutcome.ok "ok", [2]) ∧
    GraphClientM.make_request c2resps401 =
      (GraphClientM.ApiOutcome.authFailed, []) ∧
    GraphClientM.make_request c2resps503 =
      (GraphClientM.ApiOutcome.serviceUnavailable, [1, 2, 4]) := by
  have h429 := (c2_retry_policy c2resps429 3 0 3 (some 2) "limited").2.1
    (by decide) (by decide)
  have h401 := (c2_retry_policy c2resps401 3 0 3 none "denied").1 (by decide)
  have h503 := (c2_retry_policy c2resps503 3 3 0 none "down").2.2.2.2.1
    (by decide) (by decide)
  refine ⟨?_, ?_, ?_⟩
  · show GraphClientM.makeRequestLoop c2resps429 3 0 (3 + 1) = _
    rw [h429]
    decide
  · show GraphClientM.makeRequestLoop c2resps401 3 0 (3 + 1) = _
    exact h401
  · show GraphClientM.makeRequestLoop c2resps503 3 0 (3 + 1) = _
    have hstep := (c2_retry_policy c2resps503 3 0 3 none "down").2.2.2.1
      (by decide) (by decide)
    rw [hstep]
    have hstep1 := (c2_retry_policy c2resps503 3 1 2 none "down").2.2.2.1
      (by decide) (by decide)
    rw [hstep1]
    have hstep2 := (c2_retry_policy c2resps503 3 2 1 none "down").2.2.2.1
      (by decide) (by decide)
    rw [hstep2, h503]
    decide

namespace AuthCallbackM

/-- The parse_qs view of a callback query string: each key maps to the
list of its values.  With its default arguments parse_qs drops blank
values, so every list it actually produces is non-empty; queries with an
empty list model a hand-crafted mapping and exercise the IndexError
path of the handler. -/
abbrev QueryParams := List (String × List String)

/-- Key lookup in the parse_qs dict (first binding wins, as in a dict
built left to right the keys are unique). -/
def lookupQ (q : QueryParams) (k : String) : Option (List String) :=
  (q.find? (fun p => p.1 == k)).map (fun p => p.2)

/-- The mutable attributes _start_callback_server puts on the HTTPServer
object and AuthCallbackHandler.do_GET updates. -/
structure ServerState where
  auth_code : Option String
  auth_error : Option String
  auth_response : Option (List (String × String))
  callback_received : Bool
  deriving Repr, DecidableEq

/-- Server state right after _start_callback_server (auth_manager.py
lines 388-391): all attributes cleared. -/
def initialServerState : ServerState :=
  { auth_code := none, auth_error := none, auth_response := none,
    callback_received := false }

/-- The dict built in the code branch of do_GET: for every query key
whose value list is truthy (non-empty), its first value. -/
def firstParams (q : QueryParams) : List (String × String) :=
  q.filterMap (fun p =>
    match p.2 with
    | v :: _ => some (p.1, v)
    | [] => none)

/-- AuthCallbackHandler.do_GET (auth_manager.py lines 22-153) as a state
transition: given the parsed query and the current server state, it
returns the updated state and the single HTTP status code sent for this
request.  A code parameter stores the code and all non-empty parameters
and answers 200; otherwise an error parameter stores
"error: description" and answers 400; otherwise the invalid-callback
message is stored and 400 is answered; an exception inside the handler
(modelled here: the IndexError from indexing an empty value list) is
caught by the outer except, which stores a handler-error message and
answers 500.  Every branch sets callback_received and sends exactly one
response. -/
def do_GET (q : QueryParams) (s : ServerState) : ServerState × Nat :=
  match lookupQ q "code" with
  | some (auth_code :: _) =>
    ({ s with auth_response := some (firstParams q),
              auth_code := some auth_code,
              callback_received := true }, 200)
  | some [] =>
    ({ s with auth_error := some "Callback handler error: list index out of range",
              callback_received := true }, 500)
  | none =>
    match lookupQ q "error" with
    | some (error :: _) =>
      (match lookupQ q "error_description" with
       | some (d :: _) =>
         ({ s with auth_error := some (error ++ ": " ++ d),
                   callback_received := true }, 400)
       | some [] =>
         ({ s with auth_error := some "Callback handler error: list index out of range",
                   callback_received := true }, 500)
       | none =>
         ({ s with auth_error := some (error ++ ": " ++ ""),
                   callback_received := true }, 400))
    | some [] =>
      ({ s with auth_error := some "Callback handler error: list index out of range",
                callback_received := true }, 500)
    | none =>
      ({ s with auth_error := some "Invalid callback - no authorization code received",
                callback_received := true }, 400)

end AuthCallbackM

/-- C3: classification of an inbound callback by do_GET.  A code
parameter yields outcome Code (the code stored, every non-empty query
parameter retained in auth_response) with HTTP status 200; otherwise an
error parameter yields outcome ProviderError (error plus
error_description-or-empty stored) with status 400; otherwise the
Malformed outcome with status 400; an internal handler exception (the
IndexError modelled by an empty value list for code) yields status 500.
The transition returns exactly one status per callback. -/
theorem c3_callback_classification (q : AuthCallbackM.QueryParams)
    (s : AuthCallbackM.ServerState) :
    (∀ c rest, AuthCallbackM.lookupQ q "code" = some (c :: rest) →
      AuthCallbackM.do_GET q s =
        ({ s with auth_response := some (AuthCallbackM.firstParams q),
                  auth_code := some c, callback_received := true }, 200)) ∧
    (AuthCallbackM.lookupQ q "code" = none →
      ∀ e rest, AuthCallbackM.lookupQ q "error" = some (e :: rest) →
      ∀ d drest, AuthCallbackM.lookupQ q "error_description" = some (d :: drest) →
      AuthCallbackM.do_GET q s =
        ({ s with auth_error := some (e ++ ": " ++ d),
                  callback_received := true }, 400)) ∧
    (AuthCallbackM.lookupQ q "code" = none →
      ∀ e rest, AuthCallbackM.lookupQ q "error" = some (e :: rest) →
      AuthCallbackM.lookupQ q "error_description" = none →
      AuthCallbackM.do_GET q s =
        ({ s with auth_error := some (e ++ ": " ++ ""),
                  callback_received := true }, 400)) ∧
    (AuthCallbackM.lookupQ q "code" = none →
      AuthCallbackM.lookupQ q "error" = none →
      AuthCallbackM.do_GET q s =
        ({ s with auth_error := some "Invalid callback - no authorization code received",
                  callback_received := true }, 400)) ∧
    (AuthCallbackM.lookupQ q "code" = some [] →
      (AuthCallbackM.do_GET q s).2 = 500) := by
  refine ⟨?_, ?_, ?_, ?_, ?_⟩
  · intro c rest hc
    simp [AuthCallbackM.do_GET, hc]
  · intro hc e rest he d drest hd
    simp [AuthCallbackM.do_GET, hc, he, hd]
  · intro hc e rest he hd
    simp [AuthCallbackM.do_GET, hc, he, hd]
  · intro hc he
    simp [AuthCallbackM.do_GET, hc, he]
  · intro hc
    simp [AuthCallbackM.do_GET, hc]

/-- C3 witness: the classification theorem evaluated on the concrete
callbacks of the spec scenarios: code=abc&state=xyz answers 200 and
retains both parameters; error=access_denied with a description answers
400; an empty query answers 400; a code key with an empty value list
takes the exception path and answers 500. -/
theorem c3_callback_classification_witness :
    AuthCallbackM.do_GET [("code", ["abc"]), ("state", ["xyz"])]
        AuthCallbackM.initialServerState =
      ({ auth_code := some "abc", auth_error := none,
         auth_response := some [("code", "abc"), ("state", "xyz")],
         callback_received := true }, 200) ∧
    AuthCallbackM.do_GET
        [("error", ["access_denied"]), ("error_description", ["User cancelled"])]
        AuthCallbackM.initialServerState =
      ({ auth_code := none,
         auth_error := some "access_denied: User cancelled",
         auth_response := none, callback_received := true }, 400) ∧
    AuthCallbackM.do_GET [] AuthCallbackM.initialServerState =
      ({ auth_code := none,
         auth_error := some "Invalid callback - no authorization code received",
         auth_response := none, callback_received := true }, 400) ∧
    (AuthCallbackM.do_GET [("code", [])] AuthCallbackM.initialServerState).2 = 500 := by
  refine ⟨?_, ?_, ?_, ?_⟩
  · exact (c3_callback_classification [("code", ["abc"]), ("state", ["xyz"])]
      AuthCallbackM.initialServerState).1 "abc" [] (by decide)
  · exact (c3_callback_classification
      [("error", ["access_denied"]), ("error_description", ["User cancelled"])]
      AuthCallbackM.initialServerState).2.1 (by decide)
      "access_denied" [] (by decide) "User cancelled" [] (by decide)
  · exact (c3_callback_classification [] AuthCallbackM.initialServerState).2.2.2.1
      (by decide) (by decide)
  · exact (c3_callback_classification [("code", [])]
      AuthCallbackM.initialServerState).2.2.2.2 (by decide)

/-- C4: the claim as stated: once a request has recorded a result
(callback_received is set), a later request does not overwrite the
stored result fields. -/
def C4ClaimStatement : Prop :=
  ∀ (q : AuthCallbackM.QueryParams) (s : AuthCallbackM.ServerState),
    s.callback_received = true →
    (AuthCallbackM.do_GET q s).1.auth_code = s.auth_code ∧
    (AuthCallbackM.do_GET q s).1.auth_error = s.auth_error ∧
    (AuthCallbackM.do_GET q s).1.auth_response = s.auth_response

/-- C4 counterexample: after a first callback carrying code=first has
set the result, a second callback carrying code=second overwrites
auth_code (and auth_response): do_GET has no already-handled guard, so
the stored result is not write-once. -/
theorem c4_first_write_wins_false : ¬ C4ClaimStatement := by
  intro h
  have h2 := h [("code", ["second"])]
    (AuthCallbackM.do_GET [("code", ["first"])] AuthCallbackM.initialServerState).1
    (by decide)
  have : (AuthCallbackM.do_GET [("code", ["second"])]
      (AuthCallbackM.do_GET [("code", ["first"])]
        AuthCallbackM.initialServerState).1).1.auth_code = some "first" := by
    rw [h2.1]; decide
  rw [show (AuthCallbackM.do_GET [("code", ["second"])]
      (AuthCallbackM.do_GET [("code", ["first"])]
        AuthCallbackM.initialServerState).1).1.auth_code = some "second" from by decide]
    at this
  simp at this

/-- C4 amended: every request reaching the listener sets
callback_received (which therefore stays true once set), and every
request carrying a code, or an error without a code, overwrites the
stored result fields with its own values regardless of any result
already stored: the handler is last-writer-wins, not first-writer-wins,
and at most one CallbackResult is consumed per flow only because login
reads the fields once after its polling wait returns. -/
theorem c4_last_write_wins (q : AuthCallbackM.QueryParams)
    (s : AuthCallbackM.ServerState) :
    (AuthCallbackM.do_GET q s).1.callback_received = true ∧
    (∀ c rest, AuthCallbackM.lookupQ q "code" = some (c :: rest) →
      (AuthCallbackM.do_GET q s).1.auth_code = some c ∧
      (AuthCallbackM.do_GET q s).1.auth_response =
        some (AuthCallbackM.firstParams q)) ∧
    (AuthCallbackM.lookupQ q "code" = none →
      ∀ e rest, AuthCallbackM.lookupQ q "error" = some (e :: rest) →
      ∀ d drest, AuthCallbackM.lookupQ q "error_description" = some (d :: drest) →
      (AuthCallbackM.do_GET q s).1.auth_error = some (e ++ ": " ++ d)) := by
  refine ⟨?_, ?_, ?_⟩
  · unfold AuthCallbackM.do_GET
    rcases AuthCallbackM.lookupQ q "code" with _ | ⟨_ | ⟨c, cs⟩⟩
    · rcases AuthCallbackM.lookupQ q "error" with _ | ⟨_ | ⟨e, es⟩⟩
      · simp
      · simp
      · rcases AuthCallbackM.lookupQ q "error_description" with _ | ⟨_ | ⟨d, ds⟩⟩
        · simp
        · simp
        · simp
    · simp
    · simp
  · intro c rest hc
    simp [AuthCallbackM.do_GET, hc]
  · intro hc e rest he d drest hd
    simp [AuthCallbackM.do_GET, hc, he, hd]

/-- C4 witness: the amended theorem evaluated on the overwriting pair of
requests: the second code-carrying request rewrites auth_code to its own
code while callback_received stays true. -/
theorem c4_last_write_wins_witness :
    ((AuthCallbackM.do_GET [("code", ["second"])]
      (AuthCallbackM.do_GET [("code", ["first"])]
        AuthCallbackM.initialServerState).1).1.callback_received = true) ∧
    ((AuthCallbackM.do_GET [("code", ["second"])]
      (AuthCallbackM.do_GET [("code", ["first"])]
        AuthCallbackM.initialServerState).1).1.auth_code = some "second") := by
  refine ⟨(c4_last_write_wins [("code", ["second"])] _).1, ?_⟩
  exact ((c4_last_write_wins [("code", ["second"])]
    (AuthCallbackM.do_GET [("code", ["first"])]
      AuthCallbackM.initialServerState).1).2.1 "second" [] (by decide)).1

namespace AuthManagerM

/-- A dict returned by an MSAL token call: the access token when the
dict carries one, and the error_description used in failure messages. -/
structure MsalResult where
  access_token : Option String
  error_description : String
  deriving Repr, DecidableEq

/-- Outcome of one call into the MSAL library: the dict it returns, or
the exception it raises (carrying str(e)). -/
inductive MsalOutcome where
  | returns (r : MsalResult)
  | raises (msg : String)
  deriving Repr, DecidableEq

/-- First-binding lookup in the auth_response dict. -/
def lookupS (resp : List (String × String)) (k : String) : Option String :=
  (resp.find? (fun p => p.1 == k)).map (fun p => p.2)

/-- Modelled from the spec: msal.PublicClientApplication.acquire_token_by_auth_code_flow
is library code, not part of this repository; the spec describes its
role in the flow (on receiving the Code outcome the state parameter is
verified against the expected state of the flow; on mismatch the login
fails with a CSRF error and no token exchange is attempted).  The model
compares the state of the flow dict with the state of auth_response:
on mismatch it raises the state-mismatch error without contacting the
token endpoint; on a match it performs the code-for-token POST, whose
outcome the environment supplies.  The first component records whether
the token-endpoint request was made. -/
def acquire_token_by_auth_code_flow (flow_state : String)
    (auth_response : List (String × String)) (endpoint : MsalOutcome) :
    Bool × MsalOutcome :=
  if lookupS auth_response "state" = some flow_state then (true, endpoint)
  else (false, MsalOutcome.raises "state mismatch")

/-- Environment of one AuthManager.login invocation: the outcome of
every external interaction the body can perform, in program order. -/
structure LoginEnv where
  /-- token_manager.get_tokens() at the idempotent guard. -/
  stored_tokens : Option TokenManagerM.TokenData
  /-- Exception from get_accounts / acquire_token_silent, if raised. -/
  silent_exc : Option String
  /-- acquire_token_silent result (None or a dict). -/
  silent : Option MsalResult
  /-- Whether _start_callback_server returns True. -/
  start_server_ok : Bool
  /-- Exception from initiate_auth_code_flow, if raised. -/
  flow_exc : Option String
  /-- Whether the flow dict contains auth_uri. -/
  flow_has_auth_uri : Bool
  /-- The state nonce MSAL puts into the flow dict. -/
  flow_state : String
  /-- Exception from webbrowser.open, if raised. -/
  browser_exc : Option String
  /-- Whether _wait_for_callback returns True (False is the timeout). -/
  wait_ok : Bool
  /-- The callback server state when login resumes after the wait. -/
  server_final : AuthCallbackM.ServerState
  /-- Outcome of the token-endpoint POST, when the exchange reaches it. -/
  endpoint : MsalOutcome
  /-- token_manager.store_tokens result for the exchanged tokens. -/
  store_ok : Bool
  deriving Repr, DecidableEq

/-- Observable trace of one login() call: the returned Bool, whether the
callback listener was started and whether it was stopped again before
returning, whether the browser was opened, whether a token-endpoint
exchange request was made, and the (success, message) invocations of the
optional user callback. -/
structure LoginTrace where
  result : Bool
  server_started : Bool
  server_stopped : Bool
  browser_opened : Bool
  exchange_request_made : Bool
  callback_log : List (Bool × String)
  deriving Repr, DecidableEq

/-- The part of AuthManager.login after the idempotent guard
(auth_manager.py lines 225-324): start the callback server, build the
authorization URL, open the browser, wait for the callback, check the
recorded error / code, run the exchange, store the tokens; every branch
that can raise is routed through the outer except, which stops the
callback server and reports failure through the optional callback. -/
def loginFull (env : LoginEnv) : LoginTrace :=
  if ¬ env.start_server_ok then
    { result := false, server_started := false, server_stopped := false,
      browser_opened := false, exchange_request_made := false,
      callback_log := [(false, "Failed to start local callback server")] }
  else
    match env.flow_exc with
    | some e =>
      { result := false, server_started := true, server_stopped := true,
        browser_opened := false, exchange_request_made := false,
        callback_log := [(false, "Authentication error: " ++ e)] }
    | none =>
      if ¬ env.flow_has_auth_uri then
        { result := false, server_started := true, server_stopped := true,
          browser_opened := false, exchange_request_made := false,
          callback_log := [(false, "Failed to create authorization URL")] }
      else
        match env.browser_exc with
        | some e =>
          { result := false, server_started := true, server_stopped := true,
            browser_opened := false, exchange_request_made := false,
            callback_log := [(false, "Authentication error: " ++ e)] }
        | none =>
          if ¬ env.wait_ok then
            { result := false, server_started := true, server_stopped := true,
              browser_opened := true, exchange_request_made := false,
              callback_log :=
                [(false, "Authentication timed out or failed - no callback received")] }
          else
            match env.server_final.auth_error with
            | some e =>
              { result := false, server_started := true, server_stopped := true,
                browser_opened := true, exchange_request_made := false,
                callback_log := [(false, "Authentication error: " ++ e)] }
            | none =>
              match env.server_final.auth_code with
              | none =>
                { result := false, server_started := true, server_stopped := true,
                  browser_opened := true, exchange_request_made := false,
                  callback_log := [(false, "No authorization code received")] }
              | some c =>
                let auth_response :=
                  (env.server_final.auth_response).getD [("code", c)]
                let ex := acquire_token_by_auth_code_flow env.flow_state
                  auth_response env.endpoint
                match ex.2 with
                | MsalOutcome.raises msg =>
                  { result := false, server_started := true, server_stopped := true,
                    browser_opened := true, exchange_request_made := ex.1,
                    callback_log := [(false, "Authentication error: " ++ msg)] }
                | MsalOutcome.returns r =>
                  match r.access_token with
                  | some _ =>
                    if env.store_ok then
                      { result := true, server_started := true, server_stopped := true,
                        browser_opened := true, exchange_request_made := ex.1,
                        callback_log := [(true, "Authentication successful")] }
                    else
                      { result := false, server_started := true, server_stopped := true,
                        browser_opened := true, exchange_request_made := ex.1,
                        callback_log := [(false, "Failed to store authentication tokens")] }
                  | none =>
                    { result := false, server_started := true, server_stopped := true,
                      browser_opened := true, exchange_request_made := ex.1,
                      callback_log :=
                        [(false, "Authentication failed: " ++ r.error_description)] }

/-- AuthManager.login (auth_manager.py lines 194-324): the idempotent
guard first -- when get_tokens() returns a stored blob (no validity
check is made on it) acquire_token_silent is tried, and a result
carrying an access_token returns True at once, with no callback server
and no browser; an exception there is caught by the outer except (the
stop call is a no-op, the server was never created); in every other
case the full flow of loginFull runs. -/
def login (env : LoginEnv) : LoginTrace :=
  match env.stored_tokens with
  | some _ =>
    match env.silent_exc with
    | some e =>
      { result := false, server_started := false, server_stopped := false,
        browser_opened := false, exchange_request_made := false,
        callback_log := [(false, "Authentication error: " ++ e)] }
    | none =>
      match env.silent with
      | some r =>
        match r.access_token with
        | some _ =>
          { result := true, server_started := false, server_stopped := false,
            browser_opened := false, exchange_request_made := false,
            callback_log := [(true, "Already authenticated")] }
        | none => loginFull env
      | none => loginFull env
  | none => loginFull env

end AuthManagerM

namespace AuthManagerM

/-- Environment of one AuthManager.get_access_token invocation. -/
structure GetTokenEnv where
  /-- token_manager.get_tokens() result. -/
  stored_tokens : Option TokenManagerM.TokenData
  /-- The clock int(time.time()) during the validity checks. -/
  now : Int
  /-- Whether self.app.get_accounts() returns a non-empty list. -/
  has_accounts : Bool
  /-- Exception from get_accounts / acquire_token_silent, if raised. -/
  silent_exc : Option String
  /-- acquire_token_silent result (None or a dict). -/
  silent : Option MsalResult
  deriving Repr, DecidableEq

/-- AuthManager.get_access_token (auth_manager.py lines 340-373): when
the stored blob is valid, try silent acquisition (storing and returning
the fresh token on success); when silent acquisition yields nothing but
the stored token is still valid, fall back to the stored access_token;
otherwise None.  Any exception is caught and becomes None.  Both
validity checks are modelled with the same clock value. -/
def get_access_token (env : GetTokenEnv) : Option String :=
  if TokenManagerM.is_token_valid env.stored_tokens env.now then
    if env.has_accounts then
      match env.silent_exc with
      | some _ => none
      | none =>
        match env.silent with
        | some r =>
          match r.access_token with
          | some t => some t
          | none =>
            if TokenManagerM.is_token_valid env.stored_tokens env.now then
              env.stored_tokens.bind (fun td => td.access_token)
            else none
        | none =>
          if TokenManagerM.is_token_valid env.stored_tokens env.now then
            env.stored_tokens.bind (fun td => td.access_token)
          else none
    else
      if TokenManagerM.is_token_valid env.stored_tokens env.now then
        env.stored_tokens.bind (fun td => td.access_token)
      else none
  else none

end AuthManagerM

/-- C5: a login flow whose callback delivered a code with a state
parameter different from the state of the flow dict fails without the
token exchange: loginFull returns False, makes no token-endpoint
request, and (when the flow reached the exchange) reports the
state-mismatch error through the optional callback; and login runs
loginFull whenever no token blob is stored. -/
theorem c5_csrf_mismatch (env : AuthManagerM.LoginEnv)
    (c : String) (resp : List (String × String))
    (herr : env.server_final.auth_error = none)
    (hcode : env.server_final.auth_code = some c)
    (hresp : env.server_final.auth_response = some resp)
    (hstate : AuthManagerM.lookupS resp "state" ≠ some env.flow_state) :
    ((AuthManagerM.loginFull env).result = false ∧
     (AuthManagerM.loginFull env).exchange_request_made = false) ∧
    (env.start_server_ok = true → env.flow_exc = none →
     env.flow_has_auth_uri = true → env.browser_exc = none →
     env.wait_ok = true →
     (AuthManagerM.loginFull env).callback_log =
       [(false, "Authentication error: " ++ "state mismatch")]) ∧
    (env.stored_tokens = none →
     AuthManagerM.login env = AuthManagerM.loginFull env) := by
  refine ⟨?_, ?_, ?_⟩
  · unfold AuthManagerM.loginFull
    rcases hs : env.start_server_ok with _ | _
    · simp
    · simp only [Bool.true_eq_false, not_false_eq_true, if_true, Bool.not_true,
        if_false]
      rcases hf : env.flow_exc with _ | e
      · rcases hu : env.flow_has_auth_uri with _ | _
        · simp
        · simp only [Bool.not_true, Bool.false_eq_true, if_false]
          rcases hb : env.browser_exc with _ | e
          · rcases hw : env.wait_ok with _ | _
            · simp
            · simp only [Bool.not_true, Bool.false_eq_true, if_false, herr,
                hcode, hresp]
              simp [AuthManagerM.acquire_token_by_auth_code_flow, hstate]
          · simp
      · simp
  · intro hs hf hu hb hw
    simp [AuthManagerM.loginFull, hs, hf, hu, hb, hw, herr, hcode, hresp,
      AuthManagerM.acquire_token_by_auth_code_flow, hstate]
  · intro hst
    simp [AuthManagerM.login, hst]

/-- The server state of the CSRF scenario: a callback delivered
code=abc with state=wrong while the flow expected state xyz. -/
def c5server : AuthCallbackM.ServerState :=
  { auth_code := some "abc", auth_error := none,
    auth_response := some [("code", "abc"), ("state", "wrong")],
    callback_received := true }

/-- The endpoint answer for the CSRF scenario (never reached). -/
def c5endpoint : AuthManagerM.MsalOutcome :=
  AuthManagerM.MsalOutcome.returns
    { access_token := some "AT1", error_description := "" }

/-- The login environment for the CSRF scenario. -/
def c5env : AuthManagerM.LoginEnv :=
  { stored_tokens := none, silent_exc := none, silent := none,
    start_server_ok := true, flow_exc := none, flow_has_auth_uri := true,
    flow_state := "xyz", browser_exc := none, wait_ok := true,
    server_final := c5server, endpoint := c5endpoint, store_ok := true }

/-- C5 witness: a concrete flow whose expected state is xyz while the
callback carried state=wrong: loginFull fails, contacts no token
endpoint, and reports the state mismatch. -/
theorem c5_csrf_mismatch_witness :
    ((AuthManagerM.loginFull c5env).result = false ∧
     (AuthManagerM.loginFull c5env).exchange_request_made = false) ∧
    (AuthManagerM.loginFull c5env).callback_log =
      [(false, "Authentication error: " ++ "state mismatch")] ∧
    AuthManagerM.login c5env = AuthManagerM.loginFull c5env := by
  have h := c5_csrf_mismatch c5env "abc" [("code", "abc"), ("state", "wrong")]
    rfl rfl rfl (by decide)
  exact ⟨h.1, h.2.1 rfl rfl rfl rfl rfl, h.2.2 rfl⟩

/-- Shape facts about every loginFull trace: the callback server is
stopped exactly when it was started; success implies the full flow ran
(server started, browser opened); and the optional user callback is
invoked exactly once, with the returned success flag. -/
lemma loginFull_shape (env : AuthManagerM.LoginEnv) :
    ((AuthManagerM.loginFull env).server_stopped =
      (AuthManagerM.loginFull env).server_started) ∧
    ((AuthManagerM.loginFull env).result = true →
      (AuthManagerM.loginFull env).server_started = true) ∧
    ((AuthManagerM.loginFull env).result = true →
      (AuthManagerM.loginFull env).browser_opened = true) ∧
    (∃ m, (AuthManagerM.loginFull env).callback_log =
      [((AuthManagerM.loginFull env).result, m)]) := by
  unfold AuthManagerM.loginFull
  repeat' split
  all_goals try simp
  all_goals repeat' split
  all_goals simp

/-- Every login call either short-circuits in the idempotent guard
(callback server never started, hence never stopped, one callback
invocation) or behaves as loginFull. -/
lemma login_guard_or_full (env : AuthManagerM.LoginEnv) :
    ((AuthManagerM.login env).server_started = false ∧
     (AuthManagerM.login env).server_stopped = false ∧
     (∃ m, (AuthManagerM.login env).callback_log =
       [((AuthManagerM.login env).result, m)])) ∨
    AuthManagerM.login env = AuthManagerM.loginFull env := by
  unfold AuthManagerM.login
  repeat' split
  all_goals first
  | (right; rfl)
  | (left; exact ⟨rfl, rfl, _, rfl⟩)

/-- C7: the claim as stated: whenever a valid token already exists in
the token store, or silent refresh via the stored refresh token
succeeds, login returns success immediately, with no browser opened and
no callback listener started. -/
def C7ClaimStatement : Prop :=
  ∀ (env : AuthManagerM.LoginEnv) (now : Int),
    (TokenManagerM.is_token_valid env.stored_tokens now = true ∨
     ((∃ td, env.stored_tokens = some td ∧ td.refresh_token.isSome = true) ∧
      env.silent_exc = none ∧
      (∃ r, env.silent = some r ∧ r.access_token.isSome = true))) →
    (AuthManagerM.login env).result = true ∧
    (AuthManagerM.login env).server_started = false ∧
    (AuthManagerM.login env).browser_opened = false

/-- A stored token blob that is perfectly valid at now = 0. -/
def c7token : TokenManagerM.TokenData :=
  { access_token := some "AT", refresh_token := some "RT",
    expires_at := some 1000000 }

/-- A login environment holding a perfectly valid stored token while the
MSAL in-memory cache is empty (a fresh process: the cache is never
rehydrated from the keychain), so acquire_token_silent returns None. -/
def c7env : AuthManagerM.LoginEnv :=
  { stored_tokens := some c7token,
    silent_exc := none, silent := none,
    start_server_ok := true, flow_exc := none, flow_has_auth_uri := true,
    flow_state := "xyz", browser_exc := none, wait_ok := false,
    server_final := AuthCallbackM.initialServerState,
    endpoint := AuthManagerM.MsalOutcome.raises "unreached",
    store_ok := true }

/-- C7 counterexample: with a valid token in the store (expires_at =
1000000, now = 0) but acquire_token_silent returning None, login does
not return immediately: it starts the callback server and opens the
browser, because the guard tests only the presence of a stored blob
plus the success of acquire_token_silent, never the stored validity. -/
theorem c7_idempotent_guard_false : ¬ C7ClaimStatement := by
  intro h
  exact absurd (h c7env 0 (Or.inl (by decide))).2.2 (by decide)

/-- C7 amended: login returns success immediately with no callback
listener and no browser exactly when some token blob is stored
(valid or expired -- its validity is not consulted) and
acquire_token_silent returns a dict carrying an access_token; in every
other case, a stored valid token included, the full browser flow runs
(or fails). -/
theorem c7_login_guard (env : AuthManagerM.LoginEnv) :
    ((AuthManagerM.login env).result = true ∧
     (AuthManagerM.login env).server_started = false ∧
     (AuthManagerM.login env).browser_opened = false) ↔
    (env.stored_tokens.isSome = true ∧ env.silent_exc = none ∧
     ∃ r, env.silent = some r ∧ r.access_token.isSome = true) := by
  have hshape := loginFull_shape env
  constructor
  · rintro ⟨h1, h2, -⟩
    rcases hst : env.stored_tokens with _ | td
    · have hfull : AuthManagerM.login env = AuthManagerM.loginFull env := by
        simp [AuthManagerM.login, hst]
      rw [hfull] at h1 h2
      rw [hshape.2.1 h1] at h2
      exact absurd h2 (by simp)
    · rcases hse : env.silent_exc with _ | e
      · rcases hsi : env.silent with _ | r
        · have hfull : AuthManagerM.login env = AuthManagerM.loginFull env := by
            simp [AuthManagerM.login, hst, hse, hsi]
          rw [hfull] at h1 h2
          rw [hshape.2.1 h1] at h2
          exact absurd h2 (by simp)
        · rcases hac : r.access_token with _ | t
          · have hfull : AuthManagerM.login env = AuthManagerM.loginFull env := by
              simp [AuthManagerM.login, hst, hse, hsi, hac]
            rw [hfull] at h1 h2
            rw [hshape.2.1 h1] at h2
            exact absurd h2 (by simp)
          · exact ⟨by simp [hst], rfl, r, rfl, by simp [hac]⟩
      · have hres : (AuthManagerM.login env).result = false := by
          simp [AuthManagerM.login, hst, hse]
        rw [hres] at h1
        exact absurd h1 (by simp)
  · rintro ⟨h1, h2, r, hr, ht⟩
    obtain ⟨td, hst⟩ := Option.isSome_iff_exists.mp h1
    obtain ⟨t, hat⟩ := Option.isSome_iff_exists.mp ht
    refine ⟨?_, ?_, ?_⟩ <;> simp [AuthManagerM.login, hst, h2, hr, hat]

/-- C8: on every exit path of login in which the callback listener was
started, the listener is stopped again before login returns: the trace
never shows server_started without server_stopped. -/
theorem c8_listener_stopped (env : AuthManagerM.LoginEnv)
    (h : (AuthManagerM.login env).server_started = true) :
    (AuthManagerM.login env).server_stopped = true := by
  rcases login_guard_or_full env with ⟨h1, -, -⟩ | heq
  · rw [h1] at h
    simp at h
  · rw [heq] at h ⊢
    rw [(loginFull_shape env).1, h]

/-- C8 witness: in the CSRF-scenario environment the listener is
started, and the theorem yields that it is stopped before return. -/
theorem c8_listener_stopped_witness :
    (AuthManagerM.login c5env).server_started = true ∧
    (AuthManagerM.login c5env).server_stopped = true :=
  ⟨by decide, c8_listener_stopped c5env (by decide)⟩

/-- C10: both public entry points are total over their declared return
types: login always returns a Bool, invoking the optional user callback
exactly once with precisely that success flag (in particular every
internal failure, the modelled exceptions included, reports False); an
exception inside the idempotent guard is caught and reported as
failure; and get_access_token returns an Option, with the modelled
exception from silent acquisition caught and turned into None. -/
theorem c10_total_entry_points :
    (∀ env : AuthManagerM.LoginEnv,
      ∃ m, (AuthManagerM.login env).callback_log =
        [((AuthManagerM.login env).result, m)]) ∧
    (∀ (env : AuthManagerM.LoginEnv) (e : String),
      env.stored_tokens.isSome = true → env.silent_exc = some e →
      (AuthManagerM.login env).result = false ∧
      (AuthManagerM.login env).callback_log =
        [(false, "Authentication error: " ++ e)]) ∧
    (∀ (env : AuthManagerM.GetTokenEnv) (e : String),
      TokenManagerM.is_token_valid env.stored_tokens env.now = true →
      env.has_accounts = true → env.silent_exc = some e →
      AuthManagerM.get_access_token env = none) := by
  refine ⟨?_, ?_, ?_⟩
  · intro env
    rcases login_guard_or_full env with ⟨-, -, hm⟩ | heq
    · exact hm
    · rw [heq]
      exact (loginFull_shape env).2.2.2
  · intro env e h1 h2
    obtain ⟨td, hst⟩ := Option.isSome_iff_exists.mp h1
    constructor
    · simp [AuthManagerM.login, hst, h2]
    · simp [AuthManagerM.login, hst, h2]
  · intro env e h1 h2 h3
    simp [AuthManagerM.get_access_token, h1, h2, h3]

/-- A get_access_token environment with a valid stored token, an MSAL
account, and a silent call that raises. -/
def c10genv : AuthManagerM.GetTokenEnv :=
  { stored_tokens := some c7token, now := 0, has_accounts := true,
    silent_exc := some "boom", silent := none }

/-- A login environment whose idempotent guard raises inside
acquire_token_silent. -/
def c10lenv : AuthManagerM.LoginEnv :=
  { stored_tokens := some c7token,
    silent_exc := some "boom", silent := none,
    start_server_ok := true, flow_exc := none, flow_has_auth_uri := true,
    flow_state := "xyz", browser_exc := none, wait_ok := false,
    server_final := AuthCallbackM.initialServerState,
    endpoint := AuthManagerM.MsalOutcome.raises "unreached",
    store_ok := true }

/-- C10 witness: the totality theorem evaluated at concrete
environments: the raising guard yields False with a single failure
callback, and the raising silent acquisition yields None. -/
theorem c10_total_entry_points_witness :
    ((AuthManagerM.login c10lenv).result = false ∧
     (AuthManagerM.login c10lenv).callback_log =
       [(false, "Authentication error: " ++ "boom")]) ∧
    AuthManagerM.get_access_token c10genv = none ∧
    (∃ m, (AuthManagerM.login c5env).callback_log =
      [((AuthManagerM.login c5env).result, m)]) := by
  refine ⟨?_, ?_, ?_⟩
  · exact c10_total_entry_points.2.1 c10lenv "boom" (by decide) (by decide)
  · exact c10_total_entry_points.2.2 c10genv "boom" (by decide) (by decide) (by decide)
  · exact c10_total_entry_points.1 c5env

namespace KeyringM

/-- The OS secret store as the keyring library presents it: a finite map
from (service, account) to the stored secret, modelled as an
association list. -/
abbrev Keyring := List ((String × String) × String)

/-- The fixed service identifier from config.py (KEYCHAIN_SERVICE). -/
def KEYCHAIN_SERVICE : String := "yacht-email-reader"

/-- keyring.delete_password: removes the entry, raising
PasswordDeleteError (the error case) when no such entry exists.  The
keyring library is an external dependency; this models its documented
contract, which token_manager.py itself relies on by catching
PasswordDeleteError. -/
def delete_password (kr : Keyring) (service account : String) :
    Except Unit Keyring :=
  if (kr.find? (fun p => p.1.1 == service && p.1.2 == account)).isSome then
    Except.ok (kr.filter (fun p => !(p.1.1 == service && p.1.2 == account)))
  else
    Except.error ()

/-- TokenManager.clear_tokens (token_manager.py lines 81-110) on the
happy path (secret store reachable): deletes the token entry and the
cache entry, each in its own try with PasswordDeleteError passed over,
then returns True.  Returns the result together with the new store. -/
def clear_tokens (username : String) (kr : Keyring) : Bool × Keyring :=
  let kr1 :=
    match delete_password kr KEYCHAIN_SERVICE username with
    | Except.ok kr2 => kr2
    | Except.error _ => kr
  let kr2 :=
    match delete_password kr1 KEYCHAIN_SERVICE (username ++ "_cache") with
    | Except.ok kr3 => kr3
    | Except.error _ => kr1
  (true, kr2)

/-- AuthManager.logout (auth_manager.py lines 326-338): returns
token_manager.clear_tokens(); its own try/except cannot fire on the
happy path. -/
def logout (username : String) (kr : Keyring) : Bool × Keyring :=
  clear_tokens username kr

/-- The two keys clear_tokens removes are gone whether or not they were
present: on either branch the resulting store is the filtered one. -/
lemma delete_password_state (kr : Keyring) (service account : String) :
    (match delete_password kr service account with
     | Except.ok kr2 => kr2
     | Except.error _ => kr) =
      kr.filter (fun p => !(p.1.1 == service && p.1.2 == account)) := by
  unfold delete_password
  rcases hf : (kr.find? (fun p => p.1.1 == service && p.1.2 == account)).isSome with _ | _
  · simp only [hf, Bool.false_eq_true, if_false]
    have hn : List.find? (fun p => p.1.1 == service && p.1.2 == account) kr = none := by
      rcases h : List.find? (fun p => p.1.1 == service && p.1.2 == account) kr with _ | v
      · exact h
      · rw [h] at hf
        simp at hf
    rw [List.find?_eq_none] at hn
    rw [eq_comm, List.filter_eq_self]
    intro a ha
    simp [hn a ha]
  · simp [hf]

/-- Filtering with the same two predicates twice is the same as
filtering once. -/
lemma filter_pair_idem {α : Type} (f1 f2 : α → Bool) (l : List α) :
    List.filter f2 (List.filter f1 (List.filter f2 (List.filter f1 l))) =
      List.filter f2 (List.filter f1 l) := by
  induction l with
  | nil => rfl
  | cons a t ih =>
    rcases h1 : f1 a with _ | _ <;> rcases h2 : f2 a with _ | _ <;>
      simp [List.filter_cons, h1, h2] <;>
      simpa [List.filter_cons, h1, h2] using ih

end KeyringM

/-- C9: clear_tokens and logout are idempotent and total on the happy
path: for every store state (the empty store included) they report
success, clearing twice reports success twice, and the second clear
leaves the store exactly as the first one did. -/
theorem c9_clear_logout_idempotent (username : String) (kr : KeyringM.Keyring) :
    (KeyringM.clear_tokens username kr).1 = true ∧
    (KeyringM.clear_tokens username (KeyringM.clear_tokens username kr).2).1 = true ∧
    (KeyringM.logout username kr).1 = true ∧
    (KeyringM.logout username []).1 = true ∧
    (KeyringM.clear_tokens username (KeyringM.clear_tokens username kr).2).2 =
      (KeyringM.clear_tokens username kr).2 := by
  refine ⟨rfl, rfl, rfl, rfl, ?_⟩
  show (KeyringM.clear_tokens username (KeyringM.clear_tokens username kr).2).2 =
    (KeyringM.clear_tokens username kr).2
  unfold KeyringM.clear_tokens
  simp only [KeyringM.delete_password_state]
  exact KeyringM.filter_pair_idem _ _ kr

namespace GraphSearchM

/-- A JSON field as a Python dict holds it: the key can be absent,
present with an explicit null, or present with a value.  This
distinction matters because dict.get(key, default) substitutes the
default only for an absent key; an explicit null comes back as None. -/
inductive Field (α : Type) where
  | missing
  | null
  | val (v : α)
  deriving Repr, DecidableEq

/-- Python dict.get(key, default): default for an absent key, None for
an explicit null, the value otherwise. -/
def Field.getD {α : Type} : Field α → α → Option α
  | Field.missing, d => some d
  | Field.null, _ => none
  | Field.val v, _ => some v

/-- One item of the provider response's value array, restricted to the
directly-defaulted fields of the summary built by search_emails.  The
from and receivedDateTime fields go through the helper functions
_extract_email_address and _format_datetime (dateutil parsing), which
none of the claims mention; they are left out of the record. -/
structure GraphMessage where
  id : Field String
  subject : Field String
  bodyPreview : Field String
  isRead : Field Bool
  hasAttachments : Field Bool
  importance : Field String
  deriving Repr, DecidableEq

/-- The normalized summary record search_emails builds per item; a None
in a field is an explicit null propagated into the output dict. -/
structure EmailInfo where
  id : Option String
  subject : Option String
  bodyPreview : Option String
  isRead : Option Bool
  hasAttachments : Option Bool
  importance : Option String
  deriving Repr, DecidableEq

/-- The result-processing loop of GraphClient.search_emails
(graph_client.py lines 218-230): one summary per item of
response.get(value, []), each field via message.get with its default.
No truncation to max_results happens here. -/
def processResults (value : List GraphMessage) : List EmailInfo :=
  value.map (fun message =>
    { id := message.id.getD ""
      subject := message.subject.getD "(No Subject)"
      bodyPreview := message.bodyPreview.getD ""
      isRead := message.isRead.getD false
      hasAttachments := message.hasAttachments.getD false
      importance := message.importance.getD "normal" })

/-- GraphClient.search_emails (graph_client.py lines 164-233), reduced
to its data flow: the $top query parameter sent to the provider is
min(max_results, 999), and the returned list is the processed provider
response.  The pair returned is ($top sent, emails returned). -/
def search_emails (max_results : Nat) (response_value : List GraphMessage) :
    Nat × List EmailInfo :=
  (min max_results 999, processResults response_value)

end GraphSearchM

/-- C6: the claim as stated: for every maxResults and every provider
response, the returned sequence holds at most maxResults items and no
returned item has a null subject. -/
def C6ClaimStatement : Prop :=
  ∀ (max_results : Nat) (value : List GraphSearchM.GraphMessage),
    (GraphSearchM.search_emails max_results value).2.length ≤ max_results ∧
    ∀ e ∈ (GraphSearchM.search_emails max_results value).2, e.subject ≠ none

/-- A provider item whose subject key holds an explicit null. -/
def c6nullItem : GraphSearchM.GraphMessage :=
  { id := GraphSearchM.Field.val "m1", subject := GraphSearchM.Field.null,
    bodyPreview := GraphSearchM.Field.val "p1",
    isRead := GraphSearchM.Field.val false,
    hasAttachments := GraphSearchM.Field.val false,
    importance := GraphSearchM.Field.val "normal" }

/-- A well-formed provider item. -/
def c6okItem : GraphSearchM.GraphMessage :=
  { id := GraphSearchM.Field.val "m2",
    subject := GraphSearchM.Field.val "invoice",
    bodyPreview := GraphSearchM.Field.val "p2",
    isRead := GraphSearchM.Field.val true,
    hasAttachments := GraphSearchM.Field.val true,
    importance := GraphSearchM.Field.val "high" }

/-- C6 counterexample: with maxResults = 1 and a provider response of
two items whose first subject is an explicit null, search_emails
returns both items (no local truncation: the code only caps the $top
parameter it sends) and the first returned subject is None (dict.get
only substitutes the placeholder for an absent key, not for null). -/
theorem c6_cap_and_subject_false :
    ¬ C6ClaimStatement ∧
    (GraphSearchM.search_emails 1 [c6nullItem, c6okItem]).2.length = 2 ∧
    ((GraphSearchM.search_emails 1 [c6nullItem, c6okItem]).2.head?.map
      (fun e => e.subject)) = some none := by
  refine ⟨?_, by decide, by decide⟩
  intro h
  have h2 := (h 1 [c6nullItem, c6okItem]).1
  have : (GraphSearchM.search_emails 1 [c6nullItem, c6okItem]).2.length = 2 := by
    decide
  omega

/-- C6 amended: search_emails sends $top = min(maxResults, 999) to the
provider and otherwise returns exactly one summary per provider item --
the length of the output equals the length of the provider value array,
with no local cap at maxResults -- and the subject of each summary is
the placeholder (No Subject) when the subject key is absent, the
original string when present, and a propagated null when the provider
sent an explicit null. -/
theorem c6_search_normalization (max_results : Nat)
    (value : List GraphSearchM.GraphMessage) :
    (GraphSearchM.search_emails max_results value).1 = min max_results 999 ∧
    (GraphSearchM.search_emails max_results value).2.length = value.length ∧
    (∀ i : Fin value.length,
      ((GraphSearchM.search_emails max_results value).2.get
        (Fin.cast (by simp [GraphSearchM.search_emails, GraphSearchM.processResults]) i)).subject =
      match (value.get i).subject with
      | GraphSearchM.Field.missing => some "(No Subject)"
      | GraphSearchM.Field.null => none
      | GraphSearchM.Field.val s => some s) := by
  refine ⟨rfl, by simp [GraphSearchM.search_emails, GraphSearchM.processResults], ?_⟩
  intro i
  simp only [GraphSearchM.search_emails, GraphSearchM.processResults, List.get_eq_getElem,
    Fin.coe_cast, List.getElem_map]
  rcases (value.get i).subject with _ | _ | s <;>
    simp_all [GraphSearchM.Field.getD, List.get_eq_getElem]
